import Mathlib

/-!
# Verification of the Pibble-User-DB media-list and avatar stores

Shallow embedding of the core data layer of the repository:

* the unified `user_media` table (`src/src/controllers/watchedController.ts`,
  `src/src/controllers/favoritesController.ts`) with three boolean list
  flags (`is_watchlist`, `is_favorite`, `is_watched`) and their paired
  nullable timestamp columns;
* the transaction helper `withTransaction`
  (`src/utilities/transactionUtils.ts`);
* the avatar catalog / assignment operations (`getUserAvatar`,
  `updateUserAvatar`).

The database state is a list of rows; SQL statements become list
transformations translated statement by statement from the query text of the controllers.  Timestamps are `Nat` instants supplied by the caller (the SQL
`NOW()`), nullable columns are `Option Nat`, and the `gen_random_uuid()`
primary key is an externally supplied `Nat`.  The trigger-maintained
bookkeeping columns `created_at` / `updated_at` are not part of the
embedded row because no query in the repository ever reads them.
-/

/-- Column `media_type VARCHAR CHECK (media_type IN (movie, tvshow))`. -/
inductive MediaType where
  | movie
  | tvshow
deriving DecidableEq, Repr

/-- Selector for the three parallel list resources.  The three controllers
are textually identical up to the flag / timestamp column pair, so the
embedding is parameterized by this selector and the controller functions
are its instantiations. -/
inductive ListKind where
  | watchlist
  | favorites
  | watched
deriving DecidableEq, Repr

/-- One row of the `user_media` table (schema in the setup guide:
`id, user_id, media_id, media_type, is_watchlist, is_favorite, is_watched,
watchlist_added_at, favorite_added_at, watched_at,
UNIQUE (user_id, media_id)`). -/
structure UserMediaRow where
  id : Nat
  user_id : Nat
  media_id : String
  media_type : MediaType
  is_watchlist : Bool
  is_favorite : Bool
  is_watched : Bool
  watchlist_added_at : Option Nat
  favorite_added_at : Option Nat
  watched_at : Option Nat
deriving DecidableEq, Repr

/-- The `user_media` table state. -/
abbrev MediaDB := List UserMediaRow

/-- The boolean flag column selected by a list kind. -/
def flagOf (k : ListKind) (r : UserMediaRow) : Bool :=
  match k with
  | .watchlist => r.is_watchlist
  | .favorites => r.is_favorite
  | .watched => r.is_watched

/-- The timestamp column paired with the flag of a list kind. -/
def tsOf (k : ListKind) (r : UserMediaRow) : Option Nat :=
  match k with
  | .watchlist => r.watchlist_added_at
  | .favorites => r.favorite_added_at
  | .watched => r.watched_at

/-- Clause `SET <flag> = b, <timestamp> = t` on one row, for the column pair
selected by `k` (every UPDATE / upsert clause of the controllers sets the two
columns together). -/
def setFlagTs (k : ListKind) (b : Bool) (t : Option Nat) (r : UserMediaRow) :
    UserMediaRow :=
  match k with
  | .watchlist => { r with is_watchlist := b, watchlist_added_at := t }
  | .favorites => { r with is_favorite := b, favorite_added_at := t }
  | .watched => { r with is_watched := b, watched_at := t }

/-- Clause `WHERE user_id = $1 AND media_id = $2` — the natural key filter. -/
def keyMatch (uid : Nat) (mid : String) (r : UserMediaRow) : Bool :=
  r.user_id == uid && r.media_id == mid

/-- Condition `is_watchlist = FALSE AND is_favorite = FALSE AND is_watched = FALSE` —
the orphan condition of the cleanup DELETEs. -/
def allFlagsFalse (r : UserMediaRow) : Bool :=
  !r.is_watchlist && !r.is_favorite && !r.is_watched

/-- Fresh row inserted by the add upsert when no `(user_id, media_id)` row
exists: the selected flag true with its timestamp `NOW()`, the other flags
at their `DEFAULT FALSE` / `NULL`. -/
def newMediaRow (k : ListKind) (uid : Nat) (mid : String) (mt : MediaType)
    (now rowId : Nat) : UserMediaRow :=
  setFlagTs k true (some now)
    { id := rowId, user_id := uid, media_id := mid, media_type := mt,
      is_watchlist := false, is_favorite := false, is_watched := false,
      watchlist_added_at := none, favorite_added_at := none,
      watched_at := none }

/-- Statement `INSERT INTO user_media (user_id, media_id, media_type, <flag>, <ts>)
VALUES ($1, $2, $3, TRUE, NOW()) ON CONFLICT (user_id, media_id) DO UPDATE
SET <flag> = TRUE, <ts> = NOW()` — the add upsert shared by
`addToWatched` / `addToFavorites` / the watchlist controller.  On conflict
only the selected flag / timestamp pair is touched; `media_type` is not in
the DO UPDATE SET list. -/
def sqlUpsertAdd (k : ListKind) (uid : Nat) (mid : String) (mt : MediaType)
    (now rowId : Nat) (db : MediaDB) : MediaDB :=
  if db.any (keyMatch uid mid) then
    db.map (fun r => if keyMatch uid mid r then setFlagTs k true (some now) r else r)
  else
    db ++ [newMediaRow k uid mid mt now rowId]

/-- Statement `UPDATE user_media SET <flag> = FALSE, <ts> = NULL
WHERE user_id = $1 AND media_id = $2` — first statement of the
single-item delete transaction (no flag condition in the WHERE). -/
def sqlClearFlagItem (k : ListKind) (uid : Nat) (mid : String)
    (db : MediaDB) : MediaDB :=
  db.map (fun r => if keyMatch uid mid r then setFlagTs k false none r else r)

/-- Statement `DELETE FROM user_media WHERE user_id = $1 AND media_id = $2
AND is_watchlist = FALSE AND is_favorite = FALSE AND is_watched = FALSE` —
second statement of the single-item delete transaction. -/
def sqlDeleteOrphanItem (uid : Nat) (mid : String) (db : MediaDB) : MediaDB :=
  db.filter (fun r => !(keyMatch uid mid r && allFlagsFalse r))

/-- Statement `UPDATE user_media SET <flag> = FALSE, <ts> = NULL
WHERE user_id = $1 AND <flag> = TRUE` — first statement of the delete-all
transaction. -/
def sqlClearFlagAll (k : ListKind) (uid : Nat) (db : MediaDB) : MediaDB :=
  db.map (fun r => if r.user_id == uid && flagOf k r then setFlagTs k false none r else r)

/-- Statement `DELETE FROM user_media WHERE user_id = $1 AND is_watchlist = FALSE
AND is_favorite = FALSE AND is_watched = FALSE` — second statement of the
delete-all transaction. -/
def sqlDeleteOrphanAll (uid : Nat) (db : MediaDB) : MediaDB :=
  db.filter (fun r => !((r.user_id == uid) && allFlagsFalse r))

/-- The committed effect of `deleteWatchedItem` / `deleteFavoriteItem` /
the watchlist single-item delete: flag-clearing UPDATE then conditional
orphan DELETE (the two statements the controller runs inside
`withTransaction`). -/
def deleteItemCore (k : ListKind) (uid : Nat) (mid : String)
    (db : MediaDB) : MediaDB :=
  sqlDeleteOrphanItem uid mid (sqlClearFlagItem k uid mid db)

/-- The committed effect of `deleteAllWatched` / `deleteAllFavorites` /
the watchlist delete-all: clear every set flag of the user, then delete the
all-false rows of the user. -/
def deleteAllCore (k : ListKind) (uid : Nat) (db : MediaDB) : MediaDB :=
  sqlDeleteOrphanAll uid (sqlClearFlagAll k uid db)

/-- Source `deleteWatchedItem` from watchedController.ts (committed effect). -/
def deleteWatchedItem (uid : Nat) (mid : String) (db : MediaDB) : MediaDB :=
  deleteItemCore .watched uid mid db

/-- Source `deleteFavoriteItem` from favoritesController.ts (committed effect). -/
def deleteFavoriteItem (uid : Nat) (mid : String) (db : MediaDB) : MediaDB :=
  deleteItemCore .favorites uid mid db

/-- Source `deleteAllWatched` from watchedController.ts (committed effect). -/
def deleteAllWatched (uid : Nat) (db : MediaDB) : MediaDB :=
  deleteAllCore .watched uid db

/-- Source `deleteAllFavorites` from favoritesController.ts (committed effect). -/
def deleteAllFavorites (uid : Nat) (db : MediaDB) : MediaDB :=
  deleteAllCore .favorites uid db

/-- Source `addToWatched` from watchedController.ts (table effect of the upsert). -/
def addToWatched (uid : Nat) (mid : String) (mt : MediaType)
    (now rowId : Nat) (db : MediaDB) : MediaDB :=
  sqlUpsertAdd .watched uid mid mt now rowId db

/-- Source `addToFavorites` from favoritesController.ts (table effect of the
upsert). -/
def addToFavorites (uid : Nat) (mid : String) (mt : MediaType)
    (now rowId : Nat) (db : MediaDB) : MediaDB :=
  sqlUpsertAdd .favorites uid mid mt now rowId db

/-- The only failure the transaction wrapper surfaces to callers of the
remove operations. -/
inductive TxError where
  | transactionFailure
deriving DecidableEq, Repr

/-- Helper `withTransaction` from transactionUtils.ts: runs the callback between
BEGIN and COMMIT; if the callback throws, ROLLBACK restores the pre-call
table state and the error is re-thrown.  The state component of the result
is the table the caller observes after the call. -/
def withTransaction (db : MediaDB) (cb : MediaDB → Except TxError MediaDB) :
    MediaDB × Option TxError :=
  match cb db with
  | .ok db2 => (db2, none)
  | .error e => (db, some e)

/-- One `client.query` round trip inside a transaction: `fail` injects an
infrastructure failure of this statement (connection loss, constraint
violation), which aborts the callback; otherwise the table
effect of the statement `f` is applied. -/
def txStatement (fail : Bool) (f : MediaDB → MediaDB) (db : MediaDB) :
    Except TxError MediaDB :=
  if fail then .error .transactionFailure else .ok (f db)

/-- Handlers `deleteWatchedItem` / `deleteFavoriteItem` as executed through
`withTransaction`: UPDATE then DELETE, each a fallible round trip
(`fail1`, `fail2` say whether the respective statement fails). -/
def deleteItemTx (k : ListKind) (uid : Nat) (mid : String)
    (fail1 fail2 : Bool) (db : MediaDB) : MediaDB × Option TxError :=
  withTransaction db (fun db0 => do
    let db1 ← txStatement fail1 (sqlClearFlagItem k uid mid) db0
    let db2 ← txStatement fail2 (sqlDeleteOrphanItem uid mid) db1
    pure db2)

/-- Handlers `deleteAllWatched` / `deleteAllFavorites` as executed through
`withTransaction`. -/
def deleteAllTx (k : ListKind) (uid : Nat) (fail1 fail2 : Bool)
    (db : MediaDB) : MediaDB × Option TxError :=
  withTransaction db (fun db0 => do
    let db1 ← txStatement fail1 (sqlClearFlagAll k uid) db0
    let db2 ← txStatement fail2 (sqlDeleteOrphanAll uid) db1
    pure db2)

/-- The projection each GET handler returns per row:
`{id, source_text, user_id, media_type, media_id, added_at}` with
`added_at` aliasing the own timestamp column of the list. -/
structure MediaListItem where
  id : Nat
  source_text : ListKind
  user_id : Nat
  media_type : MediaType
  media_id : String
  added_at : Option Nat
deriving DecidableEq, Repr

/-- Projection `SELECT id, user_id, media_id, media_type, <ts> as added_at` row
projection. -/
def projectItem (k : ListKind) (r : UserMediaRow) : MediaListItem :=
  { id := r.id, source_text := k, user_id := r.user_id,
    media_type := r.media_type, media_id := r.media_id,
    added_at := tsOf k r }

/-- Ordering `ORDER BY <ts> DESC` comparison on the nullable timestamp column:
in PostgreSQL a descending sort puts NULLs first, then larger values. -/
def tsDescBefore (a b : Option Nat) : Bool :=
  match a, b with
  | none, _ => true
  | some _, none => false
  | some x, some y => y ≤ x

/-- Row ordering used by the ORDER BY clause of the GET queries. -/
def rowBefore (k : ListKind) (a b : UserMediaRow) : Prop :=
  tsDescBefore (tsOf k a) (tsOf k b) = true

instance (k : ListKind) : DecidableRel (rowBefore k) := fun a b =>
  inferInstanceAs (Decidable (tsDescBefore (tsOf k a) (tsOf k b) = true))

instance (k : ListKind) : IsTotal UserMediaRow (rowBefore k) where
  total a b := by
    unfold rowBefore tsDescBefore
    rcases tsOf k a with _ | x <;> rcases tsOf k b with _ | y <;> simp
    omega

instance (k : ListKind) : IsTrans UserMediaRow (rowBefore k) where
  trans a b c hab hbc := by
    unfold rowBefore tsDescBefore at hab hbc ⊢
    rcases ha : tsOf k a with _ | x <;>
      rcases hb : tsOf k b with _ | y <;>
        rcases hc : tsOf k c with _ | z <;>
          simp_all <;> omega

/-- Query `SELECT … FROM user_media WHERE user_id = $1 AND <flag> = TRUE
ORDER BY <ts> DESC` followed by the row mapping of the handler — the shared
body of `getWatched` / `getFavorites` / the watchlist GET.  A pure
function of the table state: the GET handlers issue no writes. -/
def listCore (k : ListKind) (db : MediaDB) (uid : Nat) : List MediaListItem :=
  (((db.filter (fun r => r.user_id == uid && flagOf k r)).insertionSort
      (rowBefore k)).map (projectItem k))

/-- Source `getWatched` from watchedController.ts. -/
def getWatched (db : MediaDB) (uid : Nat) : List MediaListItem :=
  listCore .watched db uid

/-- Source `getFavorites` from favoritesController.ts. -/
def getFavorites (db : MediaDB) (uid : Nat) : List MediaListItem :=
  listCore .favorites db uid

/-- One row of the `avatars` catalog table. -/
structure Avatar where
  avatar_id : Nat
  avatar_name : String
  avatar_url : String
  is_default : Bool
deriving DecidableEq, Repr

/-- One row of the `user_avatars` assignment table
(`user_id INTEGER PRIMARY KEY, avatar_id INTEGER NOT NULL REFERENCES
avatars`). -/
structure UserAvatar where
  user_id : Nat
  avatar_id : Nat
  updated_at : Nat
deriving DecidableEq, Repr

/-- State owned by the avatar controller: the catalog and the assignment
table. -/
structure AvatarDB where
  avatars : List Avatar
  user_avatars : List UserAvatar
deriving DecidableEq, Repr

/-- Source `getUserAvatar` from the avatar controller: the two-branch
`UNION ALL … LIMIT 1` query.  Branch one joins the assignment `user_avatars`
row of the user to `avatars`; branch two selects the default-flagged catalog rows
only when no assignment row exists for the user (`NOT EXISTS`); `LIMIT 1`
takes the first row of the union.  The handler answers 404 on an empty
result, modelled as `none`.  A pure function of the state: this handler
issues no writes. -/
def getUserAvatar (db : AvatarDB) (uid : Nat) : Option Avatar :=
  let assigned := (db.user_avatars.filter (fun ua => ua.user_id == uid)).flatMap
    (fun ua => db.avatars.filter (fun a => a.avatar_id == ua.avatar_id))
  let fallback :=
    if db.user_avatars.any (fun ua => ua.user_id == uid) then []
    else db.avatars.filter (fun a => a.is_default)
  (assigned ++ fallback).head?

/-- Source `updateUserAvatar` from the avatar controller: (1) `SELECT avatar_id
FROM avatars WHERE avatar_id = $1` — empty result answers 404 before any
write; (2) `INSERT INTO user_avatars (user_id, avatar_id) VALUES ($1, $2)
ON CONFLICT (user_id) DO UPDATE SET avatar_id = EXCLUDED.avatar_id,
updated_at = NOW()`; (3) re-read the full catalog row and return it.
Result: the state after the call and either the returned row or the 404
signal (`none`). -/
def updateUserAvatar (db : AvatarDB) (uid aid : Nat) (now : Nat) :
    AvatarDB × Option (Option Avatar) :=
  if (db.avatars.filter (fun a => a.avatar_id == aid)).isEmpty then
    (db, none)
  else
    let assigned :=
      if db.user_avatars.any (fun ua => ua.user_id == uid) then
        db.user_avatars.map (fun ua =>
          if ua.user_id == uid then { ua with avatar_id := aid, updated_at := now }
          else ua)
      else
        db.user_avatars ++ [{ user_id := uid, avatar_id := aid, updated_at := now }]
    let db2 : AvatarDB := { db with user_avatars := assigned }
    (db2, some (db2.avatars.find? (fun a => a.avatar_id == aid)))

/-- Per-row flag / timestamp coherence: each flag is true exactly when its
paired timestamp column is non-null. -/
def rowCoherent (r : UserMediaRow) : Bool :=
  (r.is_watchlist == r.watchlist_added_at.isSome) &&
  (r.is_favorite == r.favorite_added_at.isSome) &&
  (r.is_watched == r.watched_at.isSome)

/-- Table invariant: every row is flag / timestamp coherent. -/
def flagTsCoherent (db : MediaDB) : Prop := ∀ r ∈ db, rowCoherent r = true

/-- Table invariant: no row has all three list flags false. -/
def noOrphanRows (db : MediaDB) : Prop := ∀ r ∈ db, allFlagsFalse r = false

instance (db : MediaDB) : Decidable (flagTsCoherent db) :=
  inferInstanceAs (Decidable (∀ r ∈ db, rowCoherent r = true))

instance (db : MediaDB) : Decidable (noOrphanRows db) :=
  inferInstanceAs (Decidable (∀ r ∈ db, allFlagsFalse r = false))

theorem flagOf_setFlagTs_same (k : ListKind) (b : Bool) (t : Option Nat)
    (r : UserMediaRow) : flagOf k (setFlagTs k b t r) = b := by
  cases k <;> rfl

theorem tsOf_setFlagTs_same (k : ListKind) (b : Bool) (t : Option Nat)
    (r : UserMediaRow) : tsOf k (setFlagTs k b t r) = t := by
  cases k <;> rfl

theorem flagOf_setFlagTs_ne (j k : ListKind) (b : Bool) (t : Option Nat)
    (r : UserMediaRow) (h : j ≠ k) : flagOf j (setFlagTs k b t r) = flagOf j r := by
  cases j <;> cases k <;> first | rfl | exact absurd rfl h

theorem tsOf_setFlagTs_ne (j k : ListKind) (b : Bool) (t : Option Nat)
    (r : UserMediaRow) (h : j ≠ k) : tsOf j (setFlagTs k b t r) = tsOf j r := by
  cases j <;> cases k <;> first | rfl | exact absurd rfl h

theorem setFlagTs_id (k : ListKind) (b : Bool) (t : Option Nat)
    (r : UserMediaRow) : (setFlagTs k b t r).id = r.id := by
  cases k <;> rfl

theorem setFlagTs_user_id (k : ListKind) (b : Bool) (t : Option Nat)
    (r : UserMediaRow) : (setFlagTs k b t r).user_id = r.user_id := by
  cases k <;> rfl

theorem setFlagTs_media_id (k : ListKind) (b : Bool) (t : Option Nat)
    (r : UserMediaRow) : (setFlagTs k b t r).media_id = r.media_id := by
  cases k <;> rfl

theorem setFlagTs_media_type (k : ListKind) (b : Bool) (t : Option Nat)
    (r : UserMediaRow) : (setFlagTs k b t r).media_type = r.media_type := by
  cases k <;> rfl

theorem keyMatch_setFlagTs (uid : Nat) (mid : String) (k : ListKind)
    (b : Bool) (t : Option Nat) (r : UserMediaRow) :
    keyMatch uid mid (setFlagTs k b t r) = keyMatch uid mid r := by
  simp [keyMatch, setFlagTs_user_id, setFlagTs_media_id]

theorem allFlagsFalse_setFlagTs_true (k : ListKind) (t : Option Nat)
    (r : UserMediaRow) : allFlagsFalse (setFlagTs k true t r) = false := by
  cases k <;> simp [setFlagTs, allFlagsFalse]

theorem rowCoherent_setFlagTs_true (k : ListKind) (n : Nat) (r : UserMediaRow)
    (h : rowCoherent r = true) :
    rowCoherent (setFlagTs k true (some n) r) = true := by
  cases k <;> simp_all [setFlagTs, rowCoherent]

theorem rowCoherent_setFlagTs_false (k : ListKind) (r : UserMediaRow)
    (h : rowCoherent r = true) :
    rowCoherent (setFlagTs k false none r) = true := by
  cases k <;> simp_all [setFlagTs, rowCoherent]

theorem setFlagTs_false_idem (k : ListKind) (r : UserMediaRow) :
    setFlagTs k false none (setFlagTs k false none r) = setFlagTs k false none r := by
  cases k <;> rfl

theorem setFlagTs_false_self (k : ListKind) (r : UserMediaRow)
    (hf : flagOf k r = false) (ht : tsOf k r = none) :
    setFlagTs k false none r = r := by
  cases r
  cases k <;> simp_all [setFlagTs, flagOf, tsOf]

theorem filter_keyMatch_map_update (uid : Nat) (mid : String) (k : ListKind)
    (b : Bool) (t : Option Nat) (db : MediaDB) :
    (db.map (fun r => if keyMatch uid mid r then setFlagTs k b t r else r)).filter
        (keyMatch uid mid) =
      (db.filter (keyMatch uid mid)).map (setFlagTs k b t) := by
  induction db with
  | nil => simp
  | cons r rs ih =>
    by_cases h : keyMatch uid mid r = true
    · simp [List.filter_cons, h, keyMatch_setFlagTs, ih]
    · simp [List.filter_cons, h, ih]

theorem filter_not_keyMatch_map_update (uid : Nat) (mid : String)
    (k : ListKind) (b : Bool) (t : Option Nat) (db : MediaDB) :
    (db.map (fun r => if keyMatch uid mid r then setFlagTs k b t r else r)).filter
        (fun r => !(keyMatch uid mid r)) =
      db.filter (fun r => !(keyMatch uid mid r)) := by
  induction db with
  | nil => simp
  | cons r rs ih =>
    by_cases h : keyMatch uid mid r = true
    · simp [List.filter_cons, h, keyMatch_setFlagTs, ih]
    · simp [List.filter_cons, h, ih]

theorem filter_not_keyMatch_deleteOrphan (uid : Nat) (mid : String)
    (db : MediaDB) :
    (sqlDeleteOrphanItem uid mid db).filter (fun r => !(keyMatch uid mid r)) =
      db.filter (fun r => !(keyMatch uid mid r)) := by
  unfold sqlDeleteOrphanItem
  rw [List.filter_filter]
  apply List.filter_congr
  intro r _
  cases hk : keyMatch uid mid r <;> cases ho : allFlagsFalse r <;> rfl

theorem filter_keyMatch_deleteOrphan (uid : Nat) (mid : String)
    (db : MediaDB) :
    (sqlDeleteOrphanItem uid mid db).filter (keyMatch uid mid) =
      (db.filter (keyMatch uid mid)).filter (fun r => !(allFlagsFalse r)) := by
  unfold sqlDeleteOrphanItem
  rw [List.filter_filter, List.filter_filter]
  apply List.filter_congr
  intro r _
  cases hk : keyMatch uid mid r <;> cases ho : allFlagsFalse r <;> simp [hk, ho]

theorem filter_keyMatch_eq_nil_of_not_any (uid : Nat) (mid : String)
    (db : MediaDB) (h : db.any (keyMatch uid mid) = false) :
    db.filter (keyMatch uid mid) = [] := by
  rw [List.filter_eq_nil_iff]
  intro r hr
  intro hk
  have := List.any_eq_true.mpr ⟨r, hr, hk⟩
  rw [h] at this
  exact Bool.false_ne_true this

/-- C1: After any completed store operation (add, single-item remove, or
remove-all, for any list kind), no `user_media` row has all three flags
false: the add upsert always sets the selected flag true, and each remove
operation deletes, within the same operation, any affected row whose three
flags have all become false — so the no-orphan table invariant is
preserved by every operation. -/
theorem no_orphan_rows_preserved (k : ListKind) (uid : Nat) (mid : String)
    (mt : MediaType) (now rowId : Nat) (db : MediaDB)
    (h : noOrphanRows db) :
    noOrphanRows (sqlUpsertAdd k uid mid mt now rowId db) ∧
    noOrphanRows (deleteItemCore k uid mid db) ∧
    noOrphanRows (deleteAllCore k uid db) := by
  refine ⟨?_, ?_, ?_⟩
  · intro x hx
    unfold sqlUpsertAdd at hx
    split at hx
    · rcases List.mem_map.mp hx with ⟨r, hr, rfl⟩
      by_cases hk : keyMatch uid mid r = true
      · rw [if_pos hk]
        exact allFlagsFalse_setFlagTs_true k (some now) r
      · rw [if_neg hk]
        exact h r hr
    · rcases List.mem_append.mp hx with h1 | h1
      · exact h x h1
      · rw [List.mem_singleton] at h1
        subst h1
        unfold newMediaRow
        exact allFlagsFalse_setFlagTs_true k (some now) _
  · intro x hx
    unfold deleteItemCore sqlDeleteOrphanItem at hx
    obtain ⟨hmem, hpred⟩ := List.mem_filter.mp hx
    unfold sqlClearFlagItem at hmem
    rcases List.mem_map.mp hmem with ⟨r, hr, rfl⟩
    by_cases hk : keyMatch uid mid r = true
    · rw [if_pos hk] at hpred ⊢
      rw [keyMatch_setFlagTs, hk] at hpred
      simpa using hpred
    · rw [if_neg hk]
      exact h r hr
  · intro x hx
    unfold deleteAllCore sqlDeleteOrphanAll at hx
    obtain ⟨hmem, hpred⟩ := List.mem_filter.mp hx
    unfold sqlClearFlagAll at hmem
    rcases List.mem_map.mp hmem with ⟨r, hr, rfl⟩
    by_cases hc : (r.user_id == uid && flagOf k r) = true
    · rw [if_pos hc] at hpred ⊢
      rw [setFlagTs_user_id] at hpred
      rw [Bool.and_eq_true] at hc
      rw [hc.1] at hpred
      simpa using hpred
    · rw [if_neg hc]
      exact h r hr

/-- Sample row used by the concrete witnesses: user 7 has media "tt1" on
the watchlist only. -/
def sampleRow : UserMediaRow :=
  { id := 1, user_id := 7, media_id := "tt1", media_type := .movie,
    is_watchlist := true, is_favorite := false, is_watched := false,
    watchlist_added_at := some 5, favorite_added_at := none,
    watched_at := none }

theorem no_orphan_rows_preserved_witness :
    noOrphanRows [sampleRow] ∧
    (noOrphanRows (sqlUpsertAdd .watched 7 "tt1" .movie 9 2 [sampleRow]) ∧
     noOrphanRows (deleteItemCore .watched 7 "tt1" [sampleRow]) ∧
     noOrphanRows (deleteAllCore .watched 7 [sampleRow])) :=
  ⟨by decide,
   no_orphan_rows_preserved .watched 7 "tt1" .movie 9 2 [sampleRow] (by decide)⟩

/-- C3: Every store operation preserves the per-row invariant that each of
the three list flags is true exactly when its paired timestamp column
(`watchlist_added_at`, `favorite_added_at`, `watched_at` respectively) is
non-null: the add upsert sets flag = TRUE together with timestamp = NOW(),
and the remove operations set flag = FALSE together with timestamp =
NULL. -/
theorem flag_ts_coherence_preserved (k : ListKind) (uid : Nat)
    (mid : String) (mt : MediaType) (now rowId : Nat) (db : MediaDB)
    (h : flagTsCoherent db) :
    flagTsCoherent (sqlUpsertAdd k uid mid mt now rowId db) ∧
    flagTsCoherent (deleteItemCore k uid mid db) ∧
    flagTsCoherent (deleteAllCore k uid db) := by
  refine ⟨?_, ?_, ?_⟩
  · intro x hx
    unfold sqlUpsertAdd at hx
    split at hx
    · rcases List.mem_map.mp hx with ⟨r, hr, rfl⟩
      by_cases hk : keyMatch uid mid r = true
      · rw [if_pos hk]
        exact rowCoherent_setFlagTs_true k now r (h r hr)
      · rw [if_neg hk]
        exact h r hr
    · rcases List.mem_append.mp hx with h1 | h1
      · exact h x h1
      · rw [List.mem_singleton] at h1
        subst h1
        unfold newMediaRow
        exact rowCoherent_setFlagTs_true k now _ (by rfl)
  · intro x hx
    unfold deleteItemCore sqlDeleteOrphanItem at hx
    obtain ⟨hmem, _⟩ := List.mem_filter.mp hx
    unfold sqlClearFlagItem at hmem
    rcases List.mem_map.mp hmem with ⟨r, hr, rfl⟩
    by_cases hk : keyMatch uid mid r = true
    · rw [if_pos hk]
      exact rowCoherent_setFlagTs_false k r (h r hr)
    · rw [if_neg hk]
      exact h r hr
  · intro x hx
    unfold deleteAllCore sqlDeleteOrphanAll at hx
    obtain ⟨hmem, _⟩ := List.mem_filter.mp hx
    unfold sqlClearFlagAll at hmem
    rcases List.mem_map.mp hmem with ⟨r, hr, rfl⟩
    by_cases hc : (r.user_id == uid && flagOf k r) = true
    · rw [if_pos hc]
      exact rowCoherent_setFlagTs_false k r (h r hr)
    · rw [if_neg hc]
      exact h r hr

theorem flag_ts_coherence_preserved_witness :
    flagTsCoherent [sampleRow] ∧
    (flagTsCoherent (sqlUpsertAdd .favorites 7 "tt1" .movie 9 2 [sampleRow]) ∧
     flagTsCoherent (deleteItemCore .favorites 7 "tt1" [sampleRow]) ∧
     flagTsCoherent (deleteAllCore .favorites 7 [sampleRow])) :=
  ⟨by decide,
   flag_ts_coherence_preserved .favorites 7 "tt1" .movie 9 2 [sampleRow] (by decide)⟩

/-- C2: For every list kind, the single-item remove and the remove-all
execute their flag-clearing UPDATE and conditional orphan DELETE as one
atomic unit through `withTransaction`: if either statement fails the whole
sequence is rolled back, the caller observes the transaction failure, and
the table state is exactly the pre-call state; only when both statements
succeed does the caller observe the committed two-statement effect. -/
theorem remove_transaction_atomic (k : ListKind) (uid : Nat) (mid : String)
    (fail1 fail2 : Bool) (db : MediaDB) :
    deleteItemTx k uid mid fail1 fail2 db =
      (if fail1 || fail2 then (db, some TxError.transactionFailure)
       else (deleteItemCore k uid mid db, none)) ∧
    deleteAllTx k uid fail1 fail2 db =
      (if fail1 || fail2 then (db, some TxError.transactionFailure)
       else (deleteAllCore k uid db, none)) := by
  cases fail1 <;> cases fail2 <;> exact ⟨rfl, rfl⟩

/-- C10: The single-item remove never modifies or deletes a row of a
different `(user_id, media_id)` pair: both the UPDATE and the DELETE
filter on the natural key, so the sublist of rows not matching the key is
unchanged (same rows, same order, same field values), and every
non-matching row of the input is still present afterwards. -/
theorem remove_frame_other_rows (k : ListKind) (uid : Nat) (mid : String)
    (db : MediaDB) :
    (deleteItemCore k uid mid db).filter (fun r => !(keyMatch uid mid r)) =
      db.filter (fun r => !(keyMatch uid mid r)) ∧
    ∀ r ∈ db, keyMatch uid mid r = false → r ∈ deleteItemCore k uid mid db := by
  constructor
  · unfold deleteItemCore
    rw [filter_not_keyMatch_deleteOrphan]
    exact filter_not_keyMatch_map_update uid mid k false none db
  · intro r hr hk
    unfold deleteItemCore sqlDeleteOrphanItem sqlClearFlagItem
    rw [List.mem_filter]
    refine ⟨List.mem_map.mpr ⟨r, hr, ?_⟩, ?_⟩
    · rw [if_neg (by simp [hk])]
    · simp [hk]

theorem remove_frame_other_rows_witness :
    keyMatch 7 "tt9" sampleRow = false ∧
    sampleRow ∈ deleteItemCore .watched 7 "tt9" [sampleRow] :=
  ⟨by decide,
   (remove_frame_other_rows .watched 7 "tt9" [sampleRow]).2 sampleRow
     (List.mem_singleton_self sampleRow) (by decide)⟩

/-- Ordering `ORDER BY … DESC` on the projected items. -/
def itemBefore (a b : MediaListItem) : Prop :=
  tsDescBefore a.added_at b.added_at = true

/-- C9: For every user and list kind, the GET operation is a pure read
returning exactly the rows of the user whose selected flag is true, projected
to the response record with `added_at` taken from the own
timestamp column of that list, in descending order of that timestamp; when the user
has no such rows the result is the empty list. -/
theorem list_returns_sorted_projection (k : ListKind) (db : MediaDB)
    (uid : Nat) :
    (listCore k db uid).Perm
      ((db.filter (fun r => r.user_id == uid && flagOf k r)).map (projectItem k)) ∧
    List.Pairwise itemBefore (listCore k db uid) ∧
    ((∀ r ∈ db, r.user_id = uid → flagOf k r = false) →
      listCore k db uid = []) := by
  refine ⟨?_, ?_, ?_⟩
  · unfold listCore
    exact (List.perm_insertionSort (rowBefore k) _).map (projectItem k)
  · unfold listCore
    have hs := List.sorted_insertionSort (rowBefore k)
      (db.filter (fun r => r.user_id == uid && flagOf k r))
    exact List.Pairwise.map (projectItem k) (fun a b hab => hab) hs
  · intro h
    unfold listCore
    have hnil : db.filter (fun r => r.user_id == uid && flagOf k r) = [] := by
      rw [List.filter_eq_nil_iff]
      intro r hr hc
      rw [Bool.and_eq_true] at hc
      have hflag := h r hr (by simpa using hc.1)
      rw [hflag] at hc
      exact Bool.false_ne_true hc.2
    rw [hnil]
    rfl

theorem list_returns_sorted_projection_witness :
    (∀ r ∈ ([sampleRow] : MediaDB), r.user_id = 8 → flagOf .watched r = false) ∧
    listCore .watched [sampleRow] 8 = [] :=
  ⟨by decide, (list_returns_sorted_projection .watched [sampleRow] 8).2.2 (by decide)⟩

/-- C5: When the add upsert hits an existing `(user_id, media_id)` row it
sets only the flag of the selected list kind to true and refreshes only
the timestamp of that kind to NOW() (even if the flag was already true), while the
other two flags, their timestamps, the stored `media_type` and the row
`id` are unchanged — in particular the `media_type` argument passed by the
caller does not appear in the result (first write wins) — and every row of
a different key is untouched. -/
theorem add_existing_row_frame (k : ListKind) (uid : Nat) (mid : String)
    (mt : MediaType) (now rowId : Nat) (db : MediaDB) (r0 : UserMediaRow)
    (h : db.filter (keyMatch uid mid) = [r0]) :
    ∃ r1, (sqlUpsertAdd k uid mid mt now rowId db).filter (keyMatch uid mid) = [r1] ∧
      flagOf k r1 = true ∧ tsOf k r1 = some now ∧
      (∀ j, j ≠ k → flagOf j r1 = flagOf j r0 ∧ tsOf j r1 = tsOf j r0) ∧
      r1.media_type = r0.media_type ∧ r1.id = r0.id ∧
      (sqlUpsertAdd k uid mid mt now rowId db).filter (fun r => !(keyMatch uid mid r)) =
        db.filter (fun r => !(keyMatch uid mid r)) := by
  have hr0 : r0 ∈ db.filter (keyMatch uid mid) := by
    rw [h]
    exact List.mem_singleton_self r0
  rw [List.mem_filter] at hr0
  have hany : db.any (keyMatch uid mid) = true :=
    List.any_eq_true.mpr ⟨r0, hr0.1, hr0.2⟩
  refine ⟨setFlagTs k true (some now) r0, ?_,
    flagOf_setFlagTs_same k true (some now) r0,
    tsOf_setFlagTs_same k true (some now) r0,
    fun j hj => ⟨flagOf_setFlagTs_ne j k true (some now) r0 hj,
      tsOf_setFlagTs_ne j k true (some now) r0 hj⟩,
    setFlagTs_media_type k true (some now) r0,
    setFlagTs_id k true (some now) r0, ?_⟩
  · unfold sqlUpsertAdd
    rw [if_pos hany, filter_keyMatch_map_update, h]
    rfl
  · unfold sqlUpsertAdd
    rw [if_pos hany]
    exact filter_not_keyMatch_map_update uid mid k true (some now) db

theorem add_existing_row_frame_witness :
    ([sampleRow] : MediaDB).filter (keyMatch 7 "tt1") = [sampleRow] ∧
    ∃ r1, (sqlUpsertAdd .favorites 7 "tt1" .tvshow 9 3 [sampleRow]).filter
        (keyMatch 7 "tt1") = [r1] ∧
      flagOf .favorites r1 = true ∧ tsOf .favorites r1 = some 9 ∧
      (∀ j, j ≠ ListKind.favorites →
        flagOf j r1 = flagOf j sampleRow ∧ tsOf j r1 = tsOf j sampleRow) ∧
      r1.media_type = sampleRow.media_type ∧ r1.id = sampleRow.id ∧
      (sqlUpsertAdd .favorites 7 "tt1" .tvshow 9 3 [sampleRow]).filter
          (fun r => !(keyMatch 7 "tt1" r)) =
        ([sampleRow] : MediaDB).filter (fun r => !(keyMatch 7 "tt1" r)) :=
  ⟨by decide,
   add_existing_row_frame .favorites 7 "tt1" .tvshow 9 3 [sampleRow] sampleRow
     (by decide)⟩

theorem keyMatch_newMediaRow (k : ListKind) (uid : Nat) (mid : String)
    (mt : MediaType) (now rowId : Nat) :
    keyMatch uid mid (newMediaRow k uid mid mt now rowId) = true := by
  unfold newMediaRow
  rw [keyMatch_setFlagTs]
  simp [keyMatch]

theorem filter_keyMatch_upsert_existing (k : ListKind) (uid : Nat)
    (mid : String) (mt : MediaType) (now rowId : Nat) (db : MediaDB)
    (r0 : UserMediaRow) (h : db.filter (keyMatch uid mid) = [r0]) :
    (sqlUpsertAdd k uid mid mt now rowId db).filter (keyMatch uid mid) =
      [setFlagTs k true (some now) r0] := by
  have hr0 : r0 ∈ db.filter (keyMatch uid mid) := by
    rw [h]
    exact List.mem_singleton_self r0
  rw [List.mem_filter] at hr0
  have hany : db.any (keyMatch uid mid) = true :=
    List.any_eq_true.mpr ⟨r0, hr0.1, hr0.2⟩
  unfold sqlUpsertAdd
  rw [if_pos hany, filter_keyMatch_map_update, h]
  rfl

theorem filter_keyMatch_upsert_empty (k : ListKind) (uid : Nat)
    (mid : String) (mt : MediaType) (now rowId : Nat) (db : MediaDB)
    (h : db.filter (keyMatch uid mid) = []) :
    (sqlUpsertAdd k uid mid mt now rowId db).filter (keyMatch uid mid) =
      [newMediaRow k uid mid mt now rowId] := by
  have hall := List.filter_eq_nil_iff.mp h
  have hany : ¬db.any (keyMatch uid mid) = true := by
    rw [List.any_eq_true]
    rintro ⟨r, hr, hk⟩
    exact hall r hr hk
  unfold sqlUpsertAdd
  rw [if_neg hany, List.filter_append, h, List.nil_append, List.filter_cons,
    if_pos (keyMatch_newMediaRow k uid mid mt now rowId)]
  rfl

theorem allFlagsFalse_of_favorite (r : UserMediaRow)
    (h : r.is_favorite = true) : allFlagsFalse r = false := by
  simp [allFlagsFalse, h]

/-- C4: Cross-list independence: for any user, media and type, adding to
the watchlist, then adding to favorites, then removing from the watchlist
leaves the single `(user, media)` row present with the favorites flag
still true and the watchlist flag false — the row is not deleted because
one flag remains true.  (The hypothesis is the natural-key uniqueness
of the table: at most one row for the pair, as the UNIQUE constraint
guarantees.) -/
theorem cross_list_independence (u : Nat) (m : String) (t : MediaType)
    (n1 n2 id1 id2 : Nat) (db : MediaDB)
    (h : (db.filter (keyMatch u m)).length ≤ 1) :
    ∃ r, (deleteItemCore .watchlist u m
        (sqlUpsertAdd .favorites u m t n2 id2
          (sqlUpsertAdd .watchlist u m t n1 id1 db))).filter (keyMatch u m) = [r] ∧
      r.is_favorite = true ∧ r.is_watchlist = false := by
  have step1 : ∃ r1, (sqlUpsertAdd .watchlist u m t n1 id1 db).filter
      (keyMatch u m) = [r1] ∧ r1.is_watchlist = true := by
    rcases hf : db.filter (keyMatch u m) with _ | ⟨r0, rest⟩
    · refine ⟨newMediaRow .watchlist u m t n1 id1,
        filter_keyMatch_upsert_empty .watchlist u m t n1 id1 db hf, ?_⟩
      unfold newMediaRow
      exact flagOf_setFlagTs_same .watchlist true (some n1) _
    · have hlen : (r0 :: rest).length ≤ 1 := hf ▸ h
      have hrest : rest = [] := by
        rw [List.length_cons] at hlen
        exact List.eq_nil_of_length_eq_zero (by omega)
      subst hrest
      refine ⟨setFlagTs .watchlist true (some n1) r0,
        filter_keyMatch_upsert_existing .watchlist u m t n1 id1 db r0 hf, ?_⟩
      exact flagOf_setFlagTs_same .watchlist true (some n1) r0
  rcases step1 with ⟨r1, hf1, hw1⟩
  have step2 : (sqlUpsertAdd .favorites u m t n2 id2
      (sqlUpsertAdd .watchlist u m t n1 id1 db)).filter (keyMatch u m) =
      [setFlagTs .favorites true (some n2) r1] :=
    filter_keyMatch_upsert_existing .favorites u m t n2 id2 _ r1 hf1
  refine ⟨setFlagTs .watchlist false none (setFlagTs .favorites true (some n2) r1),
    ?_, ?_, ?_⟩
  · unfold deleteItemCore sqlClearFlagItem
    rw [filter_keyMatch_deleteOrphan, filter_keyMatch_map_update, step2,
      List.map_singleton, List.filter_cons,
      if_pos (by
        rw [Bool.not_eq_eq_eq_not, Bool.not_true]
        apply allFlagsFalse_of_favorite
        have : flagOf .favorites (setFlagTs .watchlist false none
            (setFlagTs .favorites true (some n2) r1)) = true := by
          rw [flagOf_setFlagTs_ne .favorites .watchlist false none _ (by decide)]
          exact flagOf_setFlagTs_same .favorites true (some n2) r1
        exact this)]
    rfl
  · have : flagOf .favorites (setFlagTs .watchlist false none
        (setFlagTs .favorites true (some n2) r1)) = true := by
      rw [flagOf_setFlagTs_ne .favorites .watchlist false none _ (by decide)]
      exact flagOf_setFlagTs_same .favorites true (some n2) r1
    exact this
  · exact flagOf_setFlagTs_same .watchlist false none _

theorem cross_list_independence_witness :
    (([] : MediaDB).filter (keyMatch 7 "tt1")).length ≤ 1 ∧
    ∃ r, (deleteItemCore .watchlist 7 "tt1"
        (sqlUpsertAdd .favorites 7 "tt1" .movie 4 2
          (sqlUpsertAdd .watchlist 7 "tt1" .movie 3 1 []))).filter
        (keyMatch 7 "tt1") = [r] ∧
      r.is_favorite = true ∧ r.is_watchlist = false :=
  ⟨by decide,
   cross_list_independence 7 "tt1" .movie 3 4 1 2 [] (by decide)⟩

theorem deleteItemCore_eq_self (k : ListKind) (uid : Nat) (mid : String)
    (db : MediaDB)
    (h : ∀ r ∈ db, keyMatch uid mid r = true →
      flagOf k r = false ∧ tsOf k r = none ∧ allFlagsFalse r = false) :
    deleteItemCore k uid mid db = db := by
  unfold deleteItemCore sqlClearFlagItem sqlDeleteOrphanItem
  have hmap : db.map (fun r => if keyMatch uid mid r then setFlagTs k false none r else r) = db := by
    have hcong : ∀ r ∈ db,
        (if keyMatch uid mid r then setFlagTs k false none r else r) = id r := by
      intro r hr
      by_cases hk : keyMatch uid mid r = true
      · rw [if_pos hk]
        exact setFlagTs_false_self k r (h r hr hk).1 (h r hr hk).2.1
      · rw [if_neg hk]
        rfl
    rw [List.map_congr_left hcong, List.map_id]
  rw [hmap]
  refine List.filter_eq_self.mpr ?_
  intro r hr
  by_cases hk : keyMatch uid mid r = true
  · simp [hk, (h r hr hk).2.2]
  · simp [hk]

theorem deleteItemCore_key_props (k : ListKind) (uid : Nat) (mid : String)
    (db : MediaDB) :
    ∀ x ∈ deleteItemCore k uid mid db, keyMatch uid mid x = true →
      flagOf k x = false ∧ tsOf k x = none ∧ allFlagsFalse x = false := by
  intro x hx hkx
  unfold deleteItemCore sqlDeleteOrphanItem at hx
  obtain ⟨hmem, hpred⟩ := List.mem_filter.mp hx
  unfold sqlClearFlagItem at hmem
  rcases List.mem_map.mp hmem with ⟨r, _, rfl⟩
  by_cases hk : keyMatch uid mid r = true
  · rw [if_pos hk] at hkx hpred ⊢
    rw [hkx] at hpred
    exact ⟨flagOf_setFlagTs_same k false none r,
      tsOf_setFlagTs_same k false none r, by simpa using hpred⟩
  · rw [if_neg hk] at hkx
    exact absurd hkx hk

/-- C6: The single-item remove is idempotent — running it twice yields the
same table as running it once — and removing a pair that has no row, or
whose row is not in the selected list, leaves the table exactly as it was
(no error is modelled for "not found"; the operation is a plain UPDATE +
DELETE matching nothing it would change).  The no-op direction assumes the
table invariants for the matching row: flag false with its timestamp null
(flag / timestamp coherence) and not all three flags false (no-orphan). -/
theorem remove_idempotent_noop (k : ListKind) (uid : Nat) (mid : String)
    (db : MediaDB) :
    deleteItemCore k uid mid (deleteItemCore k uid mid db) =
      deleteItemCore k uid mid db ∧
    ((∀ r ∈ db, keyMatch uid mid r = true →
        flagOf k r = false ∧ tsOf k r = none ∧ allFlagsFalse r = false) →
      deleteItemCore k uid mid db = db) :=
  ⟨deleteItemCore_eq_self k uid mid _ (deleteItemCore_key_props k uid mid db),
   fun h => deleteItemCore_eq_self k uid mid db h⟩

theorem remove_idempotent_noop_witness :
    (∀ r ∈ ([sampleRow] : MediaDB), keyMatch 7 "tt1" r = true →
      flagOf .watched r = false ∧ tsOf .watched r = none ∧
      allFlagsFalse r = false) ∧
    deleteItemCore .watched 7 "tt1" [sampleRow] = [sampleRow] :=
  ⟨by decide,
   (remove_idempotent_noop .watched 7 "tt1" [sampleRow]).2 (by decide)⟩

theorem filter_single_of_nodup_key {α : Type} (key : α → Nat) (l : List α)
    (hnd : (l.map key).Nodup) (x : α) (hx : x ∈ l) :
    l.filter (fun y => key y == key x) = [x] := by
  induction l with
  | nil => cases hx
  | cons a as ih =>
    rw [List.map_cons, List.nodup_cons] at hnd
    rcases List.mem_cons.mp hx with rfl | hx2
    · rw [List.filter_cons, if_pos (by simp)]
      have hnil : as.filter (fun y => key y == key x) = [] := by
        rw [List.filter_eq_nil_iff]
        intro y hy hk
        exact hnd.1 (List.mem_map.mpr ⟨y, hy, by simpa using hk⟩)
      rw [hnil]
    · have hne : ¬(key a == key x) = true := by
        intro he
        have hea : key a = key x := by simpa using he
        exact hnd.1 (List.mem_map.mpr ⟨x, hx2, hea.symm⟩)
      rw [List.filter_cons, if_neg hne]
      exact ih hnd.2 hx2

/-- C7: the lookup `getUserAvatar` returns the catalog row joined through the
`user_avatars` row of the user when one exists; when no assignment row exists it
returns the default-flagged row of the catalog (without writing anything — it
is a pure read); and it answers 404 (`none`) exactly when neither an
assignment row for the user nor any default-flagged catalog row exists.
Hypotheses are the schema invariants: primary keys on `avatars.avatar_id`
and `user_avatars.user_id`, and the foreign key from assignments into the
catalog. -/
theorem get_user_avatar_fallback (db : AvatarDB) (uid : Nat)
    (hcat : (db.avatars.map Avatar.avatar_id).Nodup)
    (hassign : (db.user_avatars.map UserAvatar.user_id).Nodup)
    (hfk : ∀ ua ∈ db.user_avatars, ∃ a ∈ db.avatars, a.avatar_id = ua.avatar_id) :
    (∀ ua ∈ db.user_avatars, ua.user_id = uid →
      ∀ a ∈ db.avatars, a.avatar_id = ua.avatar_id →
        getUserAvatar db uid = some a) ∧
    ((∀ ua ∈ db.user_avatars, ua.user_id ≠ uid) →
      ∀ d, db.avatars.filter (fun a => a.is_default) = [d] →
        getUserAvatar db uid = some d) ∧
    (getUserAvatar db uid = none ↔
      (∀ ua ∈ db.user_avatars, ua.user_id ≠ uid) ∧
      (∀ a ∈ db.avatars, a.is_default = false)) := by
  refine ⟨?_, ?_, ?_⟩
  · intro ua hua huid a ha haid
    subst huid
    unfold getUserAvatar
    have hfu : db.user_avatars.filter (fun x => x.user_id == ua.user_id) = [ua] :=
      filter_single_of_nodup_key UserAvatar.user_id db.user_avatars hassign ua hua
    have hfa : db.avatars.filter (fun x => x.avatar_id == ua.avatar_id) = [a] := by
      have := filter_single_of_nodup_key Avatar.avatar_id db.avatars hcat a ha
      rw [haid] at this
      exact this
    have hanyu : db.user_avatars.any (fun x => x.user_id == ua.user_id) = true :=
      List.any_eq_true.mpr ⟨ua, hua, by simp⟩
    rw [hfu, hanyu]
    simp [hfa]
  · intro hno d hd
    unfold getUserAvatar
    have hfu : db.user_avatars.filter (fun x => x.user_id == uid) = [] := by
      rw [List.filter_eq_nil_iff]
      intro ua hua hk
      exact hno ua hua (by simpa using hk)
    have hanyu : db.user_avatars.any (fun x => x.user_id == uid) = false := by
      rw [List.any_eq_false]
      intro ua hua hk
      exact hno ua hua (by simpa using hk)
    rw [hfu, hanyu]
    simp [hd]
  · unfold getUserAvatar
    constructor
    · intro hnone
      rw [List.head?_eq_none_iff, List.append_eq_nil] at hnone
      obtain ⟨hassigned, hfb⟩ := hnone
      have hno : ∀ ua ∈ db.user_avatars, ua.user_id ≠ uid := by
        intro ua hua huid
        obtain ⟨a, ha, haid⟩ := hfk ua hua
        have hmem : a ∈ (db.user_avatars.filter (fun x => x.user_id == uid)).flatMap
            (fun x => db.avatars.filter (fun y => y.avatar_id == x.avatar_id)) := by
          rw [List.mem_flatMap]
          exact ⟨ua, List.mem_filter.mpr ⟨hua, by simp [huid]⟩,
            List.mem_filter.mpr ⟨ha, by simp [haid]⟩⟩
        rw [hassigned] at hmem
        cases hmem
      refine ⟨hno, ?_⟩
      have hanyu : db.user_avatars.any (fun x => x.user_id == uid) = false := by
        rw [List.any_eq_false]
        intro ua hua hk
        exact hno ua hua (by simpa using hk)
      rw [hanyu] at hfb
      simp only [Bool.false_eq_true, if_false] at hfb
      intro a ha
      have := List.filter_eq_nil_iff.mp hfb a ha
      simpa using this
    · rintro ⟨hno, hnd⟩
      have hfu : db.user_avatars.filter (fun x => x.user_id == uid) = [] := by
        rw [List.filter_eq_nil_iff]
        intro ua hua hk
        exact hno ua hua (by simpa using hk)
      have hanyu : db.user_avatars.any (fun x => x.user_id == uid) = false := by
        rw [List.any_eq_false]
        intro ua hua hk
        exact hno ua hua (by simpa using hk)
      have hfd : db.avatars.filter (fun a => a.is_default) = [] := by
        rw [List.filter_eq_nil_iff]
        intro a ha hk
        rw [hnd a ha] at hk
        exact Bool.false_ne_true hk
      rw [hfu, hanyu]
      simp [hfd]

/-- Concrete avatar state for the witnesses: a two-row catalog whose first
row is the default, and user 7 assigned to avatar 2. -/
def sampleAvatarDB : AvatarDB :=
  { avatars := [{ avatar_id := 1, avatar_name := "Default",
                  avatar_url := "/d.png", is_default := true },
                { avatar_id := 2, avatar_name := "A2",
                  avatar_url := "/2.png", is_default := false }],
    user_avatars := [{ user_id := 7, avatar_id := 2, updated_at := 0 }] }

theorem get_user_avatar_fallback_witness :
    (sampleAvatarDB.avatars.map Avatar.avatar_id).Nodup ∧
    (sampleAvatarDB.user_avatars.map UserAvatar.user_id).Nodup ∧
    (∀ ua ∈ sampleAvatarDB.user_avatars,
      ∃ a ∈ sampleAvatarDB.avatars, a.avatar_id = ua.avatar_id) ∧
    getUserAvatar sampleAvatarDB 7 =
      some { avatar_id := 2, avatar_name := "A2", avatar_url := "/2.png",
             is_default := false } :=
  ⟨by decide, by decide, by decide,
   (get_user_avatar_fallback sampleAvatarDB 7 (by decide) (by decide)
       (by decide)).1
     { user_id := 7, avatar_id := 2, updated_at := 0 } (by decide) rfl
     { avatar_id := 2, avatar_name := "A2", avatar_url := "/2.png",
       is_default := false } (by decide) rfl⟩

/-- C8: the call `updateUserAvatar` with an `avatar_id` absent from the catalog
fails with the 404 signal (`none`) before touching the assignment table:
the returned state is exactly the input state, so a subsequent
`getUserAvatar` for the user returns the same avatar as before the failed
call. -/
theorem set_assignment_unknown_avatar (db : AvatarDB) (uid aid now : Nat)
    (h : ∀ a ∈ db.avatars, a.avatar_id ≠ aid) :
    updateUserAvatar db uid aid now = (db, none) ∧
    getUserAvatar (updateUserAvatar db uid aid now).fst uid =
      getUserAvatar db uid := by
  have hf : db.avatars.filter (fun a => a.avatar_id == aid) = [] := by
    rw [List.filter_eq_nil_iff]
    intro a ha hk
    exact h a ha (by simpa using hk)
  have h1 : updateUserAvatar db uid aid now = (db, none) := by
    unfold updateUserAvatar
    rw [if_pos (by rw [hf]; rfl)]
  exact ⟨h1, by rw [h1]⟩

theorem set_assignment_unknown_avatar_witness :
    (∀ a ∈ sampleAvatarDB.avatars, a.avatar_id ≠ 999) ∧
    updateUserAvatar sampleAvatarDB 7 999 3 = (sampleAvatarDB, none) ∧
    getUserAvatar (updateUserAvatar sampleAvatarDB 7 999 3).fst 7 =
      getUserAvatar sampleAvatarDB 7 :=
  ⟨by decide, set_assignment_unknown_avatar sampleAvatarDB 7 999 3 (by decide)⟩
